import Mathlib

/-!
Verification of the observability core of the `langchain-service` repository:
the metrics collector (`src/observability/metrics_collector.py`), the storage
layer (`src/observability/storage.py`), the drift detector
(`src/observability/drift_detector.py`) and the middleware
(`src/observability/middleware.py`).

Modelling conventions:
* Python strings that carry text content are modelled as `List Char`;
  identifier-like strings (names, ids, messages) as `String`.
* Python floats are modelled as `ℚ` where the code only does field
  arithmetic and comparisons, and as `ℝ` for the Shannon-entropy values
  (which involve `log2`).
* `time.time()` / `datetime.utcnow()` values are passed in as explicit
  arguments (the clock is an external input).
* `tiktoken` token counting and `scipy.stats.ks_2samp` are external
  libraries; they enter the model as function parameters.
* A Python function with no `raise` path is embedded as a total function;
  a function that can raise is embedded with an `Except` codomain.
-/

namespace Observability

/-- `AgentMetrics` dataclass of `metrics_collector.py` (lines 12-26):
metrics for a single agent execution. -/
structure AgentMetrics where
  agent_name : String
  timestamp : String
  execution_time_ms : ℚ
  input_text : List Char
  output_text : List Char
  input_tokens : ℕ
  output_tokens : ℕ
  total_tokens : ℕ
  estimated_cost_usd : ℚ
  model_name : String
  success : Bool
  error_message : Option String
deriving DecidableEq, Repr

/-- The mutable dict `current_request_metrics` built by
`MetricsCollector.start_request` (lines 89-98).  The dict also carries an
`agent_metrics` key that is initialised to `[]` and never written again
(tracking appends to `agent_metrics_list` instead), so it is omitted. -/
structure RequestCtx where
  request_id : String
  timestamp : String
  requested_item : String
  country : String
  urgency : String
  start_time : ℚ
  agents_executed : List String
deriving DecidableEq, Repr

/-- `RequestMetrics` dataclass of `metrics_collector.py` (lines 29-44). -/
structure RequestMetrics where
  request_id : String
  timestamp : String
  requested_item : String
  country : String
  urgency : String
  strategy : String
  total_execution_time_ms : ℚ
  total_tokens : ℕ
  total_cost_usd : ℚ
  agents_executed : List String
  agent_metrics : List AgentMetrics
  final_recommendations_count : ℕ
  success : Bool
deriving DecidableEq, Repr

/-- Mutable state of a `MetricsCollector` instance (lines 82-85):
`current_request_metrics` (None when idle) and `agent_metrics_list`. -/
structure MetricsCollector where
  current_request_metrics : Option RequestCtx
  agent_metrics_list : List AgentMetrics
deriving DecidableEq, Repr

/-- The collector state right after `__init__`: no open context, empty list. -/
def MetricsCollector.init : MetricsCollector := ⟨none, []⟩

/-- `MetricsCollector.MODEL_PRICING` (lines 59-80): price per 1K tokens,
pairs are (input price, output price). -/
def MODEL_PRICING : List (String × ℚ × ℚ) :=
  [ ("bedrock/us.anthropic.claude-3-5-sonnet-20241022-v2:0", (0.003, 0.015)),
    ("bedrock/anthropic.claude-3-sonnet-20240229-v1:0", (0.003, 0.015)),
    ("gpt-4", (0.03, 0.06)),
    ("gpt-3.5-turbo", (0.0015, 0.002)),
    ("us.amazon.nova-micro-v1:0", (0.00003, 0.00007)) ]

/-- `MetricsCollector.calculate_cost` (lines 111-118):
`MODEL_PRICING.get(model_name, MODEL_PRICING.get("gpt-3.5-turbo"))`, then
`(input_tokens / 1000) * input + (output_tokens / 1000) * output`. -/
def calculate_cost (input_tokens output_tokens : ℕ) (model_name : String) : ℚ :=
  let pricing := (MODEL_PRICING.lookup model_name).getD (0.0015, 0.002)
  (input_tokens / 1000) * pricing.1 + (output_tokens / 1000) * pricing.2

/-- `MetricsCollector.start_request` (lines 87-99): unconditionally installs
a fresh context dict and resets `agent_metrics_list`.  There is no check of
`current_request_metrics`, hence no failure path: the function is total. -/
def start_request (c : MetricsCollector) (request_id : String) (nowIso : String)
    (requested_item country urgency : String) (nowTime : ℚ) : MetricsCollector :=
  let _ := c
  { current_request_metrics := some
      { request_id := request_id
        timestamp := nowIso
        requested_item := requested_item
        country := country
        urgency := urgency
        start_time := nowTime
        agents_executed := [] }
    agent_metrics_list := [] }

/-- `MetricsCollector.track_agent_execution` (lines 120-158), with the
`tiktoken` token counter abstracted as `tok` (the code calls
`self.count_tokens` on the untruncated texts).  The function has no `raise`
path: it always builds the `AgentMetrics`, appends it to
`agent_metrics_list`, and appends the agent name to the context only when a
context is open (`if self.current_request_metrics:`). -/
def track_agent_execution (tok : List Char → ℕ) (c : MetricsCollector)
    (agent_name : String) (input_text output_text : List Char)
    (execution_time_ms : ℚ) (nowIso : String) (model_name : String)
    (success : Bool) (error_message : Option String) :
    AgentMetrics × MetricsCollector :=
  let input_tokens := tok input_text
  let output_tokens := tok output_text
  let total_tokens := input_tokens + output_tokens
  let cost := calculate_cost input_tokens output_tokens model_name
  let metrics : AgentMetrics :=
    { agent_name := agent_name
      timestamp := nowIso
      execution_time_ms := execution_time_ms
      input_text := input_text.take 500
      output_text := output_text.take 1000
      input_tokens := input_tokens
      output_tokens := output_tokens
      total_tokens := total_tokens
      estimated_cost_usd := cost
      model_name := model_name
      success := success
      error_message := error_message }
  let c' : MetricsCollector :=
    { current_request_metrics :=
        match c.current_request_metrics with
        | some ctx => some { ctx with agents_executed := ctx.agents_executed ++ [agent_name] }
        | none => none
      agent_metrics_list := c.agent_metrics_list ++ [metrics] }
  (metrics, c')

/-- `MetricsCollector.finalize_request` (lines 160-197): raises
`ValueError("No active request to finalize")` when no context is open;
otherwise sums tokens and costs over `agent_metrics_list`, builds the
`RequestMetrics`, and resets the collector state. -/
def finalize_request (c : MetricsCollector) (strategy : String)
    (recommendations_count : ℕ) (success : Bool) (endTime : ℚ) :
    Except String (RequestMetrics × MetricsCollector) :=
  match c.current_request_metrics with
  | none => .error "No active request to finalize"
  | some ctx =>
    let total_execution_time := (endTime - ctx.start_time) * 1000
    let total_tokens := (c.agent_metrics_list.map (·.total_tokens)).sum
    let total_cost := (c.agent_metrics_list.map (·.estimated_cost_usd)).sum
    let rm : RequestMetrics :=
      { request_id := ctx.request_id
        timestamp := ctx.timestamp
        requested_item := ctx.requested_item
        country := ctx.country
        urgency := ctx.urgency
        strategy := strategy
        total_execution_time_ms := total_execution_time
        total_tokens := total_tokens
        total_cost_usd := total_cost
        agents_executed := ctx.agents_executed
        agent_metrics := c.agent_metrics_list
        final_recommendations_count := recommendations_count
        success := success }
    .ok (rm, ⟨none, []⟩)

/-- Python list slicing `l[-limit:]` for a non-negative `limit`, as used by
`storage.py`.  For `limit = 0` the slice is `l[0:]` (since `-0 == 0` the
start index is `0`, not `len(l)`), i.e. the whole list; for `limit > 0` the
start index is `max(0, len(l) - limit)`. -/
def pySliceLast {α : Type} (l : List α) (limit : ℕ) : List α :=
  if limit = 0 then l else l.drop (l.length - limit)

/-- `ObservabilityStorage.store_request_metrics` (storage.py lines 103-119),
restricted to its effect on the in-memory cache `recent_metrics`: append,
then `pop(0)` when the length exceeds 100.  (The numpy sanitisation and the
file append do not affect the cache contents.) -/
def store_request_metrics {α : Type} (cache : List α) (m : α) : List α :=
  let cache' := cache ++ [m]
  if 100 < cache'.length then cache'.tail else cache'

/-- `ObservabilityStorage.get_recent_metrics` (storage.py lines 176-179):
`self.recent_metrics[-limit:]`. -/
def get_recent_metrics {α : Type} (cache : List α) (limit : ℕ) : List α :=
  pySliceLast cache limit

/-- `ObservabilityStorage.get_drift_history` (storage.py lines 186-189):
`self.drift_history[-limit:]`. -/
def get_drift_history {α : Type} (cache : List α) (limit : ℕ) : List α :=
  pySliceLast cache limit

/-- The `recent_metrics` cache after `n` calls of `store_request_metrics`
starting from an empty cache, each storing the record `a`. -/
def cacheAfterStores {α : Type} (a : α) : ℕ → List α
  | 0 => []
  | n + 1 => store_request_metrics (cacheAfterStores a n) a

/-- The baseline-refresh guard in `ObservabilityMiddleware.finalize_request`
(middleware.py lines 190-204): `recent_metrics = storage.get_recent_metrics(limit=200)`,
refresh when `len(recent_metrics) >= 100 and len(recent_metrics) % 50 == 0`. -/
def middlewareRefreshFires {α : Type} (cache : List α) : Bool :=
  let recent := get_recent_metrics cache 200
  decide (100 ≤ recent.length) && decide (recent.length % 50 = 0)

/-- Python `sep.join(samples)`. -/
def joinWith {α : Type} (sep : List α) : List (List α) → List α
  | [] => []
  | [s] => s
  | s :: rest => s ++ sep ++ joinWith sep rest

/-- Shannon entropy (base 2) of the character distribution of `l`, the loop
of `DriftDetector.calculate_entropy` (drift_detector.py lines 74-83):
`Counter` yields one positive count per distinct character, and
`entropy -= p * log2 p` for `p = count / total`. -/
noncomputable def charEntropy (l : List Char) : ℝ :=
  -∑ c in l.toFinset, ((l.count c : ℝ) / l.length) * Real.logb 2 ((l.count c : ℝ) / l.length)

/-- `DriftDetector.calculate_entropy` (drift_detector.py lines 62-83):
returns 0 for an empty sample list, otherwise the character entropy of
`" ".join(text_samples)`. -/
noncomputable def calculate_entropy (text_samples : List (List Char)) : ℝ :=
  if text_samples = [] then 0 else charEntropy (joinWith [' '] text_samples)

/-- Word-level tokenisation of `DriftDetector.calculate_word_entropy`
(lines 93-96): lower-case, whitespace-split, concatenated over samples.
Python `str.split()` and `str.lower()` are modelled abstractly: the claims
under verification do not depend on their exact behaviour, only on the
value being a deterministic function of the samples. -/
noncomputable def wordEntropyOf (splitLower : List Char → List (List Char))
    (text_samples : List (List Char)) : ℝ :=
  let all_words := (text_samples.map splitLower).flatten
  if all_words = [] then 0 else
  -∑ w in all_words.toFinset,
    ((all_words.count w : ℝ) / all_words.length) *
      Real.logb 2 ((all_words.count w : ℝ) / all_words.length)

/-- `DriftDetector.calculate_word_entropy` (lines 85-110): 0 for an empty
sample list, otherwise the entropy of the word distribution. -/
noncomputable def calculate_word_entropy (splitLower : List Char → List (List Char))
    (text_samples : List (List Char)) : ℝ :=
  if text_samples = [] then 0 else wordEntropyOf splitLower text_samples

/-- Result dict of `DriftDetector.kolmogorov_smirnov_test`.  The
insufficient-data return (lines 126-131) and the exception return have no
`"confidence"` key; Python readers use `.get("confidence")` which yields
`None` there, so the field is an `Option`. -/
structure KSResult where
  statistic : ℚ
  p_value : ℚ
  drift_detected : Bool
  message : String
  confidence : Option String
deriving DecidableEq, Repr

/-- `DriftDetector.kolmogorov_smirnov_test` (drift_detector.py lines
112-155) with `scipy.stats.ks_2samp` abstracted as `ks` (returning the pair
(statistic, p_value)); the modelled library call is total, so the
`except` branch (lines 149-155) is unreachable in the model. -/
def kolmogorov_smirnov_test (ks : List ℚ → List ℚ → ℚ × ℚ)
    (baseline_data current_data : List ℚ) : KSResult :=
  if baseline_data.length < 2 ∨ current_data.length < 2 then
    { statistic := 0
      p_value := 1
      drift_detected := false
      message := "Insufficient data for KS test"
      confidence := none }
  else
    let r := ks baseline_data current_data
    let drift_detected : Bool := decide (r.2 < 0.05)
    { statistic := r.1
      p_value := r.2
      drift_detected := drift_detected
      message := if drift_detected then "Significant drift detected" else "No significant drift"
      confidence := some (if r.2 < 0.01 then "high"
                          else if r.2 < 0.05 then "medium" else "low") }

/-- The `baseline_metrics` dict built by `DriftDetector.set_baseline`
(drift_detector.py lines 39-55). -/
structure BaselineMetrics where
  execution_times : List ℚ
  token_counts : List ℚ
  costs : List ℚ
  quality_scores : List ℚ
deriving DecidableEq, Repr

/-- One agent entry of a stored request-metrics dict, as read by the drift
detector (only `output_text` is consulted). -/
structure AgentDict where
  output_text : List Char
deriving DecidableEq, Repr

/-- One stored request-metrics dict, as read by the drift detector
(`metric.get("total_execution_time_ms", 0)` etc.; the stored dicts always
carry these keys, so they are plain fields). -/
structure MetricDict where
  total_execution_time_ms : ℚ
  total_tokens : ℚ
  total_cost_usd : ℚ
  agent_metrics : List AgentDict
deriving DecidableEq, Repr

/-- State of a `DriftDetector` instance (drift_detector.py lines 21-30). -/
structure DriftDetector where
  window_size : ℕ
  baseline_metrics : Option BaselineMetrics
  baseline_text_samples : List (List Char)
deriving DecidableEq, Repr

/-- The detector right after `DriftDetector()` (default `window_size=50`). -/
def DriftDetector.mk0 : DriftDetector := ⟨50, none, []⟩

/-- The output texts harvested from a list of metric dicts: for each metric,
each agent entry whose `output_text` is non-empty (the Python guard
`if agent_metric.get("output_text"):` rejects the empty string). -/
def harvestTexts (metrics : List MetricDict) : List (List Char) :=
  (metrics.map (fun m => (m.agent_metrics.map (·.output_text)).filter (· ≠ []))).flatten

/-- `DriftDetector.set_baseline` (drift_detector.py lines 32-60): rebuilds
`baseline_metrics` from the given metrics (an empty input list yields a
dict of four empty arrays — still a set, non-None baseline) and APPENDS the
harvested output texts to `baseline_text_samples` (the code never clears
the text pool). -/
def set_baseline (d : DriftDetector) (historical_metrics : List MetricDict) : DriftDetector :=
  { window_size := d.window_size
    baseline_metrics := some
      { execution_times := historical_metrics.map (·.total_execution_time_ms)
        token_counts := historical_metrics.map (·.total_tokens)
        costs := historical_metrics.map (·.total_cost_usd)
        quality_scores := [] }
    baseline_text_samples := d.baseline_text_samples ++ harvestTexts historical_metrics }

/-- The `entropy_analysis` block of a drift report (drift_detector.py lines
272-279). -/
structure EntropyAnalysis where
  baseline_char_entropy : ℝ
  recent_char_entropy : ℝ
  char_entropy_change_pct : ℝ
  baseline_word_entropy : ℝ
  recent_word_entropy : ℝ
  word_entropy_change_pct : ℝ

/-- The `statistical_summary` block (lines 285-292).  Caveat: the code uses
`np.mean`, which is `NaN` on an empty array; here the mean of an empty list
is the junk value 0.  No verified claim reads these fields. -/
structure StatSummary where
  baseline_avg_time_ms : ℚ
  recent_avg_time_ms : ℚ
  baseline_avg_tokens : ℚ
  recent_avg_tokens : ℚ
  baseline_avg_cost : ℚ
  recent_avg_cost : ℚ

/-- `np.mean` over a list of rationals (0 for the empty list, where numpy
would give NaN). -/
def listMean (l : List ℚ) : ℚ := l.sum / l.length

/-- A drift report as returned by `DriftDetector.detect_drift`.  The two
early returns (no baseline / no recent metrics, lines 163-179) emit dicts
without the `drift_indicators` and `statistical_summary` keys and with `{}`
for `entropy_analysis` and `ks_tests`; every reader of those keys in the
repository uses `.get(key, default)` (or iterates `.values()`), which on
the early returns behaves exactly like an empty list / `none`, so the
missing keys are modelled as `[]` / `none`.  `ks_tests` is the list of the
dict's values in insertion order: execution_time, token_usage, costs. -/
structure DriftReport where
  drift_detected : Bool
  message : String
  drift_indicators : List String
  entropy_analysis : Option EntropyAnalysis
  ks_tests : List KSResult
  statistical_summary : Option StatSummary
  recommendations : List String

section
open Classical

/-- `DriftDetector.detect_drift` (drift_detector.py lines 157-294).
`ks` abstracts `scipy.stats.ks_2samp`, `splitLower` abstracts Python's
`str.lower().split()`, and `fmtPct` abstracts the `f"{x:.1f}"` float
formatting used inside indicator and recommendation strings. -/
noncomputable def detect_drift (ks : List ℚ → List ℚ → ℚ × ℚ)
    (splitLower : List Char → List (List Char)) (fmtPct : ℝ → String)
    (d : DriftDetector) (recent_metrics : List MetricDict) : DriftReport :=
  match d.baseline_metrics with
  | none =>
    { drift_detected := false
      message := "No baseline set. Call set_baseline() first."
      drift_indicators := []
      entropy_analysis := none
      ks_tests := []
      statistical_summary := none
      recommendations := [] }
  | some bm =>
    if recent_metrics = [] then
      { drift_detected := false
        message := "No recent metrics to analyze"
        drift_indicators := []
        entropy_analysis := none
        ks_tests := []
        statistical_summary := none
        recommendations := [] }
    else
      let recent_execution_times := recent_metrics.map (·.total_execution_time_ms)
      let recent_token_counts := recent_metrics.map (·.total_tokens)
      let recent_costs := recent_metrics.map (·.total_cost_usd)
      let recent_text_samples := harvestTexts recent_metrics
      let baseline_entropy := calculate_entropy d.baseline_text_samples
      let baseline_word_entropy := calculate_word_entropy splitLower d.baseline_text_samples
      let recent_entropy := calculate_entropy recent_text_samples
      let recent_word_entropy := calculate_word_entropy splitLower recent_text_samples
      let entropy_change : ℝ :=
        if baseline_entropy > 0 then |recent_entropy - baseline_entropy| / baseline_entropy else 0
      let word_entropy_change : ℝ :=
        if baseline_word_entropy > 0 then
          |recent_word_entropy - baseline_word_entropy| / baseline_word_entropy else 0
      let ks_execution_time := kolmogorov_smirnov_test ks bm.execution_times recent_execution_times
      let ks_tokens := kolmogorov_smirnov_test ks bm.token_counts recent_token_counts
      let ks_costs := kolmogorov_smirnov_test ks bm.costs recent_costs
      let drift_indicators : List String :=
        (if entropy_change > 0.15 then
          ["Text entropy changed by " ++ fmtPct (entropy_change * 100) ++ "%"] else []) ++
        (if word_entropy_change > 0.15 then
          ["Word entropy changed by " ++ fmtPct (word_entropy_change * 100) ++ "%"] else []) ++
        (if ks_execution_time.drift_detected then
          ["Execution time distribution has drifted"] else []) ++
        (if ks_tokens.drift_detected then
          ["Token usage distribution has drifted"] else []) ++
        (if ks_costs.drift_detected then
          ["Cost distribution has drifted"] else [])
      let drift_detected : Bool := decide (0 < drift_indicators.length)
      let recommendations : List String :=
        (if recent_entropy < baseline_entropy * 0.85 then
          ["⚠️ Output diversity has decreased - AI may be producing more repetitive responses"]
         else if recent_entropy > baseline_entropy * 1.15 then
          ["⚠️ Output diversity has increased - AI may be producing less consistent responses"]
         else []) ++
        (if ks_execution_time.drift_detected then
          (let recent_avg := listMean recent_execution_times
           let baseline_avg := listMean bm.execution_times
           if recent_avg > baseline_avg * 1.2 then
             ["⚠️ Performance degradation: Average execution time increased by " ++
               fmtPct ((recent_avg / baseline_avg - 1) * 100 : ℚ) ++ "%"] else [])
         else []) ++
        (if ks_costs.drift_detected then
          (let recent_avg := listMean recent_costs
           let baseline_avg := listMean bm.costs
           if recent_avg > baseline_avg * 1.2 then
             ["⚠️ Cost increase: Average cost increased by " ++
               fmtPct ((recent_avg / baseline_avg - 1) * 100 : ℚ) ++ "%"] else [])
         else [])
      { drift_detected := drift_detected
        message := if drift_detected then
            "Drift detected: " ++ toString drift_indicators.length ++ " indicator(s)"
          else "No significant drift"
        drift_indicators := drift_indicators
        entropy_analysis := some
          { baseline_char_entropy := baseline_entropy
            recent_char_entropy := recent_entropy
            char_entropy_change_pct := entropy_change * 100
            baseline_word_entropy := baseline_word_entropy
            recent_word_entropy := recent_word_entropy
            word_entropy_change_pct := word_entropy_change * 100 }
        ks_tests := [ks_execution_time, ks_tokens, ks_costs]
        statistical_summary := some
          { baseline_avg_time_ms := listMean bm.execution_times
            recent_avg_time_ms := listMean recent_execution_times
            baseline_avg_tokens := listMean bm.token_counts
            recent_avg_tokens := listMean recent_token_counts
            baseline_avg_cost := listMean bm.costs
            recent_avg_cost := listMean recent_costs }
        recommendations := recommendations }

end

/-- `DriftDetector.get_drift_severity` (drift_detector.py lines 296-321):
"none" when `drift_detected` is falsy, otherwise tiers on the number of
high-confidence drift-flagged KS tests and the indicator count. -/
def get_drift_severity (drift_analysis : DriftReport) : String :=
  if !drift_analysis.drift_detected then "none"
  else
    let num_indicators := drift_analysis.drift_indicators.length
    let critical_ks := drift_analysis.ks_tests.countP
      (fun t => t.confidence == some "high" && t.drift_detected)
    if 2 ≤ critical_ks ∨ 4 ≤ num_indicators then "critical"
    else if critical_ks = 1 ∨ 3 ≤ num_indicators then "high"
    else if 2 ≤ num_indicators then "medium"
    else "low"

/-! ## Theorems -/

/-- C1 (counterexample): with the collector IDLE (`current_request_metrics =
none`), `track_agent_execution` does not report any error — it returns
normally and the unit is appended to `agent_metrics_list` (length 1
afterwards).  This falsifies the part of the claim asserting that `track`
while IDLE reports a usage error to the caller. -/
theorem c1_counterexample :
    MetricsCollector.init.current_request_metrics = none ∧
    ((track_agent_execution (fun l => l.length / 4) .init "coordinator"
        ['h', 'i'] ['o', 'k'] 5 "2024-01-01" "gpt-4" true none).2).agent_metrics_list.length = 1 :=
  ⟨rfl, rfl⟩

/-- C1 (amended): while IDLE, `finalize_request` raises
`ValueError("No active request to finalize")`, which propagates to the
caller; `track_agent_execution` while IDLE does NOT report an error — it
silently succeeds, appending the returned unit metric to the internal
`agent_metrics_list` and leaving the collector IDLE. -/
theorem c1_finalize_idle_errors_track_idle_silent (c : MetricsCollector)
    (h : c.current_request_metrics = none) :
    (∀ strategy cnt succ endT,
      finalize_request c strategy cnt succ endT = .error "No active request to finalize") ∧
    (∀ tok name inp out dur ts model succ err,
      ((track_agent_execution tok c name inp out dur ts model succ err).2).agent_metrics_list
        = c.agent_metrics_list ++ [(track_agent_execution tok c name inp out dur ts model succ err).1] ∧
      ((track_agent_execution tok c name inp out dur ts model succ err).2).current_request_metrics
        = none) := by
  constructor
  · intro strategy cnt succ endT
    simp [finalize_request, h]
  · intro tok name inp out dur ts model succ err
    simp [track_agent_execution, h]

/-- C1 (witness): the amended theorem applied to the freshly initialised
collector. -/
theorem c1_witness :
    finalize_request .init "fast" 0 true 0 = .error "No active request to finalize" ∧
    ((track_agent_execution (fun l => l.length / 4) .init "coordinator"
        [] [] 0 "t" "gpt-4" true none).2).current_request_metrics = none := by
  have h := c1_finalize_idle_errors_track_idle_silent .init rfl
  exact ⟨h.1 "fast" 0 true 0,
         (h.2 (fun l => l.length / 4) "coordinator" [] [] 0 "t" "gpt-4" true none).2⟩

/-- C2 (counterexample): starting `"r2"` while the context of `"r1"` is
still open (not finalized) does not fail: the open context is silently
replaced by the new one.  This falsifies the claim that `start` fails with
an `InvalidState` error in that situation. -/
theorem c2_counterexample :
    (start_request MetricsCollector.init "r1" "t1" "aspirin" "CO" "high" 0).current_request_metrics
      ≠ none ∧
    (start_request (start_request MetricsCollector.init "r1" "t1" "aspirin" "CO" "high" 0)
        "r2" "t2" "ibuprofen" "PE" "low" 1).current_request_metrics
      = some ⟨"r2", "t2", "ibuprofen", "PE", "low", 1, []⟩ :=
  ⟨by simp [start_request], rfl⟩

/-- C2 (amended): `start_request` never fails; for EVERY prior collector
state — in particular one with an open, unfinalized context — it replaces
the current context with a fresh one for the new request and resets the
tracked-unit list. -/
theorem c2_start_silently_replaces_open_context (c : MetricsCollector)
    (rid ts item country urg : String) (t0 : ℚ) :
    start_request c rid ts item country urg t0 =
      { current_request_metrics := some
          { request_id := rid, timestamp := ts, requested_item := item,
            country := country, urgency := urg, start_time := t0, agents_executed := [] }
        agent_metrics_list := [] } :=
  rfl

/-- C6: the stored unit cost follows the static price table with the
`gpt-3.5-turbo` entry as fallback for unknown models, and the stored text
snapshots are the 500- and 1000-character truncations of the input and
output texts. -/
theorem c6_cost_table_and_truncation :
    (∀ (it ot : ℕ) (model : String) (p : ℚ × ℚ), MODEL_PRICING.lookup model = some p →
      calculate_cost it ot model = (it / 1000 : ℚ) * p.1 + (ot / 1000 : ℚ) * p.2) ∧
    (∀ (it ot : ℕ) (model : String), MODEL_PRICING.lookup model = none →
      calculate_cost it ot model = calculate_cost it ot "gpt-3.5-turbo") ∧
    (∀ tok c name inp out dur ts model succ err,
      ((track_agent_execution tok c name inp out dur ts model succ err).1).estimated_cost_usd
          = calculate_cost (tok inp) (tok out) model ∧
      ((track_agent_execution tok c name inp out dur ts model succ err).1).input_text
          = inp.take 500 ∧
      ((track_agent_execution tok c name inp out dur ts model succ err).1).output_text
          = out.take 1000 ∧
      ((track_agent_execution tok c name inp out dur ts model succ err).1).input_text.length ≤ 500 ∧
      ((track_agent_execution tok c name inp out dur ts model succ err).1).output_text.length ≤ 1000) := by
  refine ⟨?_, ?_, ?_⟩
  · intro it ot model p hp
    simp [calculate_cost, hp]
  · intro it ot model hp
    simp [calculate_cost, hp]
    rfl
  · intro tok c name inp out dur ts model succ err
    refine ⟨rfl, rfl, rfl, ?_, ?_⟩
    · simp [track_agent_execution]
    · simp [track_agent_execution]

/-- C6 (witness): the cost formula at the `gpt-4` table entry, the fallback
at an unknown model, and the truncation bound at a concrete tracked unit. -/
theorem c6_witness :
    calculate_cost 2000 1000 "gpt-4" = (2000 / 1000 : ℚ) * 0.03 + (1000 / 1000 : ℚ) * 0.06 ∧
    calculate_cost 7 9 "mystery-model" = calculate_cost 7 9 "gpt-3.5-turbo" ∧
    ((track_agent_execution (fun l => l.length) .init "a" ['x'] ['y', 'z'] 1 "t" "gpt-4"
        true none).1).input_text.length ≤ 500 := by
  refine ⟨c6_cost_table_and_truncation.1 2000 1000 "gpt-4" (0.03, 0.06) (by rfl),
          c6_cost_table_and_truncation.2.1 7 9 "mystery-model" (by rfl),
          (c6_cost_table_and_truncation.2.2 (fun l => l.length) .init "a" ['x'] ['y', 'z']
            1 "t" "gpt-4" true none).2.2.2.1⟩

/-- C9: `get_recent_metrics` with `limit = 0` returns the whole in-memory
cache (the Python slice `l[-0:]` is `l[0:]`, the full list), not the empty
list; the same holds for `get_drift_history`. -/
theorem c9_zero_limit_returns_whole_cache (mcache : List MetricDict)
    (dcache : List DriftReport) :
    get_recent_metrics mcache 0 = mcache ∧ get_drift_history dcache 0 = dcache :=
  ⟨rfl, rfl⟩

/-- The recency cache holds `min n 100` records after `n` stores: the cap
in `store_request_metrics` keeps it at exactly 100 once reached. -/
lemma cacheAfterStores_length {α : Type} (a : α) (n : ℕ) :
    (cacheAfterStores a n).length = min n 100 := by
  induction n with
  | zero => simp [cacheAfterStores]
  | succ n ih =>
    simp only [cacheAfterStores, store_request_metrics, List.length_append]
    rcases Nat.lt_or_ge n 100 with h | h
    · rw [if_neg (by simp [ih]; omega)]
      simp [ih]; omega
    · rw [if_pos (by simp [ih]; omega)]
      simp [ih]; omega

/-- C4: once at least 100 request metrics have been stored, the middleware's
baseline-refresh guard fires on EVERY finalized request, not only on every
50th: the cache is capped at 100 entries, so `get_recent_metrics(limit=200)`
always returns exactly 100 records, and `100 % 50 == 0` holds
unconditionally.  In particular it fires after the 101st request even
though 101 is not a multiple of 50 — contradicting the intended
"periodically ... every 50 requests" behaviour stated by the code's own
comment and by the `% 50` test. -/
theorem c4_refresh_fires_on_every_request_once_full {α : Type} (a : α) (n : ℕ)
    (h : 100 ≤ n) :
    middlewareRefreshFires (cacheAfterStores a n) = true := by
  have hlen : (cacheAfterStores a n).length = 100 := by
    rw [cacheAfterStores_length]; omega
  have hdrop : (cacheAfterStores a n).drop ((cacheAfterStores a n).length - 200)
      = cacheAfterStores a n := by
    rw [hlen]; simp
  simp [middlewareRefreshFires, get_recent_metrics, pySliceLast, hdrop, hlen]

/-- C4 (witness): after 101 stored requests — 101 not being a multiple of
50 — the refresh guard still fires. -/
theorem c4_witness :
    ¬(101 % 50 = 0) ∧ middlewareRefreshFires (cacheAfterStores (0 : ℕ) 101) = true :=
  ⟨by decide, c4_refresh_fires_on_every_request_once_full 0 101 (by norm_num)⟩

/-- C7 (counterexample): a KS test run with fewer than 2 baseline points
returns a result that carries NO confidence label (`.get("confidence")`
yields `None`), falsifying the claim that every test result carries a
confidence label. -/
theorem c7_counterexample :
    (kolmogorov_smirnov_test (fun _ _ => (0, 1)) [10] [1, 2]).confidence = none ∧
    (kolmogorov_smirnov_test (fun _ _ => (0, 1)) [10] [1, 2]).statistic = 0 ∧
    (kolmogorov_smirnov_test (fun _ _ => (0, 1)) [10] [1, 2]).p_value = 1 ∧
    (kolmogorov_smirnov_test (fun _ _ => (0, 1)) [10] [1, 2]).drift_detected = false := by
  refine ⟨rfl, rfl, rfl, rfl⟩

/-- C7 (amended): if either sample has fewer than 2 points the result is
statistic=0, p-value=1, drift=false WITHOUT a confidence label; otherwise
drift is flagged iff p-value < 0.05 and the result carries the confidence
label "high" when p < 0.01, "medium" when 0.01 ≤ p < 0.05, and "low"
otherwise.  (`ks` abstracts `scipy.stats.ks_2samp`.) -/
theorem c7_ks_test_thresholds (ks : List ℚ → List ℚ → ℚ × ℚ)
    (baseline_data current_data : List ℚ) :
    (baseline_data.length < 2 ∨ current_data.length < 2 →
      kolmogorov_smirnov_test ks baseline_data current_data =
        ⟨0, 1, false, "Insufficient data for KS test", none⟩) ∧
    (2 ≤ baseline_data.length → 2 ≤ current_data.length →
      (kolmogorov_smirnov_test ks baseline_data current_data).statistic
          = (ks baseline_data current_data).1 ∧
      (kolmogorov_smirnov_test ks baseline_data current_data).p_value
          = (ks baseline_data current_data).2 ∧
      ((kolmogorov_smirnov_test ks baseline_data current_data).drift_detected = true
          ↔ (ks baseline_data current_data).2 < 0.05) ∧
      (kolmogorov_smirnov_test ks baseline_data current_data).confidence
          = some (if (ks baseline_data current_data).2 < 0.01 then "high"
                  else if (ks baseline_data current_data).2 < 0.05 then "medium"
                  else "low")) := by
  constructor
  · intro h
    simp only [kolmogorov_smirnov_test, if_pos h]
  · intro h1 h2
    have hne : ¬(baseline_data.length < 2 ∨ current_data.length < 2) := by omega
    simp only [kolmogorov_smirnov_test, if_neg hne]
    simp

/-- C7 (witness): the amended theorem at a KS oracle returning p = 1/200:
drift is flagged with confidence "high"; and at two singleton samples the
insufficient-data result is produced. -/
theorem c7_witness :
    (kolmogorov_smirnov_test (fun _ _ => (1/2, 1/200)) [1, 2] [3, 4]).drift_detected = true ∧
    (kolmogorov_smirnov_test (fun _ _ => (1/2, 1/200)) [1, 2] [3, 4]).confidence = some "high" ∧
    kolmogorov_smirnov_test (fun _ _ => (1/2, 1/200)) [1] [3]
      = ⟨0, 1, false, "Insufficient data for KS test", none⟩ := by
  have h := (c7_ks_test_thresholds (fun _ _ => (1/2, 1/200)) [1, 2] [3, 4]).2
    (by norm_num) (by norm_num)
  have hins := (c7_ks_test_thresholds (fun _ _ => (1/2, 1/200)) [1] [3]).1
    (by norm_num)
  refine ⟨h.2.2.1.mpr (by norm_num), ?_, hins⟩
  rw [h.2.2.2]
  norm_num

/-- A synthetic drift report with 4 indicator strings and 2 KS tests that
are drift-flagged with confidence "high" (the spec's `severity()` test
vector). -/
def syntheticCriticalReport : DriftReport :=
  { drift_detected := true
    message := "Drift detected: 4 indicator(s)"
    drift_indicators := ["i1", "i2", "i3", "i4"]
    entropy_analysis := none
    ks_tests :=
      [ ⟨0.5, 0.005, true, "Significant drift detected", some "high"⟩,
        ⟨0.6, 0.001, true, "Significant drift detected", some "high"⟩,
        ⟨0, 1, false, "Insufficient data for KS test", none⟩ ]
    statistical_summary := none
    recommendations := [] }

/-- A synthetic report with `drift_detected = false`. -/
def syntheticNoDriftReport : DriftReport :=
  { drift_detected := false
    message := "No significant drift"
    drift_indicators := []
    entropy_analysis := none
    ks_tests := []
    statistical_summary := none
    recommendations := [] }

/-- C8: `get_drift_severity` returns "none" when `drift_detected` is false;
otherwise, with H the number of KS tests whose confidence is "high" AND
whose drift flag is set, and N the indicator count, it returns "critical"
if H ≥ 2 or N ≥ 4, else "high" if H = 1 or N ≥ 3, else "medium" if N ≥ 2,
else "low"; in particular the synthetic report with 4 indicators and 2
high-confidence flagged tests gets "critical". -/
theorem c8_severity_tiers :
    (∀ r : DriftReport,
      get_drift_severity r =
        if r.drift_detected = false then "none"
        else
          let H := (r.ks_tests.filter
            (fun t => t.confidence = some "high" ∧ t.drift_detected = true)).length
          let N := r.drift_indicators.length
          if 2 ≤ H ∨ 4 ≤ N then "critical"
          else if H = 1 ∨ 3 ≤ N then "high"
          else if 2 ≤ N then "medium"
          else "low") ∧
    get_drift_severity syntheticCriticalReport = "critical" ∧
    get_drift_severity syntheticNoDriftReport = "none" := by
  refine ⟨?_, rfl, rfl⟩
  intro r
  have hcount : r.ks_tests.countP (fun t => t.confidence == some "high" && t.drift_detected)
      = (r.ks_tests.filter
          (fun t => t.confidence = some "high" ∧ t.drift_detected = true)).length := by
    rw [← List.countP_eq_length_filter]
    apply List.countP_congr
    intro t _
    cases ht : t.drift_detected <;> simp [ht]
  cases hd : r.drift_detected <;>
    simp [get_drift_severity, hd, hcount]

/-- Collector states reachable through the public API from a freshly
constructed `MetricsCollector`, with arbitrary interleavings of `start`,
`track` and (successful or failing) `finalize` calls; a raising `finalize`
leaves the state unchanged, so it needs no constructor. -/
inductive Reach : MetricsCollector → Prop
  | init : Reach .init
  | start (c : MetricsCollector) (rid ts item country urg : String) (t0 : ℚ) :
      Reach c → Reach (start_request c rid ts item country urg t0)
  | track (c : MetricsCollector) (tok : List Char → ℕ)
      (name : String) (inp out : List Char) (dur : ℚ) (ts model : String)
      (succ : Bool) (err : Option String) :
      Reach c → Reach (track_agent_execution tok c name inp out dur ts model succ err).2
  | final (c : MetricsCollector) (strategy : String) (cnt : ℕ) (succ : Bool) (endT : ℚ)
      (rm : RequestMetrics) (c' : MetricsCollector) :
      Reach c → finalize_request c strategy cnt succ endT = .ok (rm, c') → Reach c'

/-- In every reachable collector state with an open context, the context's
`agents_executed` list and the `agent_metrics_list` have equal length:
`start_request` resets both and `track_agent_execution` appends to both. -/
lemma reach_lockstep {c : MetricsCollector} (h : Reach c) :
    ∀ ctx, c.current_request_metrics = some ctx →
      ctx.agents_executed.length = c.agent_metrics_list.length := by
  induction h with
  | init => intro ctx hctx; simp [MetricsCollector.init] at hctx
  | start c rid ts item country urg t0 _ _ =>
    intro ctx hctx
    simp only [start_request, Option.some.injEq] at hctx
    subst hctx
    rfl
  | track c tok name inp out dur ts model succ err _ ih =>
    intro ctx hctx
    rcases hc : c.current_request_metrics with _ | ctx0
    · simp [track_agent_execution, hc] at hctx
    · simp only [track_agent_execution, hc, Option.some.injEq] at hctx
      subst hctx
      have := ih ctx0 hc
      simp [track_agent_execution, this]
  | final c strategy cnt succ endT rm c' _ hfin _ =>
    intro ctx hctx
    rcases hc : c.current_request_metrics with _ | ctx0 <;>
      simp only [finalize_request, hc, Except.ok.injEq, Prod.mk.injEq] at hfin
    · cases hfin
    · rw [← hfin.2] at hctx
      simp at hctx

/-- C5: every `RequestMetrics` produced by a successful `finalize_request`
from a reachable collector state satisfies: `total_tokens` is the sum of
`total_tokens` over its owned unit metrics, `total_cost_usd` is the sum of
the unit costs, and `agents_executed` has exactly one entry per tracked
unit metric. -/
theorem c5_finalize_totals (c : MetricsCollector) (h : Reach c)
    (strategy : String) (cnt : ℕ) (succ : Bool) (endT : ℚ)
    (rm : RequestMetrics) (c' : MetricsCollector)
    (hfin : finalize_request c strategy cnt succ endT = .ok (rm, c')) :
    rm.total_tokens = (rm.agent_metrics.map (·.total_tokens)).sum ∧
    rm.total_cost_usd = (rm.agent_metrics.map (·.estimated_cost_usd)).sum ∧
    rm.agents_executed.length = rm.agent_metrics.length := by
  rcases hc : c.current_request_metrics with _ | ctx <;>
    simp only [finalize_request, hc, Except.ok.injEq, Prod.mk.injEq] at hfin
  · cases hfin
  · rw [← hfin.1]
    exact ⟨rfl, rfl, reach_lockstep h ctx hc⟩

/-- A concrete collector run: start a request, then track two units. -/
def c5Demo : MetricsCollector :=
  (track_agent_execution (fun l => l.length)
    ((track_agent_execution (fun l => l.length)
        (start_request .init "r1" "t0" "aspirin" "CO" "high" 0)
        "manager" ['a', 'b'] ['c'] 10 "t1" "gpt-4" true none).2)
    "cost" ['d'] ['e', 'f', 'g'] 20 "t2" "unknown-model" true none).2

/-- The request metric finalized from `c5Demo` (the error branch is
unreachable there). -/
def c5DemoFinal : RequestMetrics :=
  match finalize_request c5Demo "fast" 2 true 1 with
  | .ok p => p.1
  | .error _ =>
    { request_id := "", timestamp := "", requested_item := "", country := ""
      urgency := "", strategy := "", total_execution_time_ms := 0, total_tokens := 0
      total_cost_usd := 0, agents_executed := [], agent_metrics := []
      final_recommendations_count := 0, success := false }

/-- C5 (witness): the totals theorem applied to the concrete two-unit run. -/
theorem c5_witness :
    c5DemoFinal.total_tokens = (c5DemoFinal.agent_metrics.map (·.total_tokens)).sum ∧
    c5DemoFinal.total_cost_usd = (c5DemoFinal.agent_metrics.map (·.estimated_cost_usd)).sum ∧
    c5DemoFinal.agents_executed.length = c5DemoFinal.agent_metrics.length := by
  have hreach : Reach c5Demo :=
    Reach.track _ (fun l => l.length) "cost" ['d'] ['e', 'f', 'g'] 20 "t2" "unknown-model"
      true none
      (Reach.track _ (fun l => l.length) "manager" ['a', 'b'] ['c'] 10 "t1" "gpt-4" true none
        (Reach.start _ "r1" "t0" "aspirin" "CO" "high" 0 Reach.init))
  exact c5_finalize_totals c5Demo hreach "fast" 2 true 1 c5DemoFinal ⟨none, []⟩ rfl

/-- If `l` contains an element different from `c`, then `c` accounts for
strictly fewer than all of `l`'s positions. -/
lemma count_lt_length_of_mem_ne {l : List Char} {c d : Char} (hd : d ∈ l) (hne : d ≠ c) :
    l.count c < l.length := by
  refine Nat.lt_of_le_of_ne (List.count_le_length c l) (fun h => hne ?_)
  have := List.count_eq_length.mp h d hd
  simpa using this.symm

/-- A character distribution with at least two distinct symbols has
strictly positive Shannon entropy: every symbol's frequency lies strictly
between 0 and 1, so every summand `-p * log2 p` is strictly positive. -/
lemma charEntropy_pos {l : List Char} {a b : Char} (hab : a ≠ b)
    (ha : a ∈ l) (hb : b ∈ l) : 0 < charEntropy l := by
  have hlenN : 0 < l.length := List.length_pos.mpr (List.ne_nil_of_mem ha)
  have hlenR : (0 : ℝ) < l.length := by exact_mod_cast hlenN
  have key : ∀ c ∈ l.toFinset,
      0 < -(((l.count c : ℝ) / l.length) * Real.logb 2 ((l.count c : ℝ) / l.length)) := by
    intro c hc
    have hcmem : c ∈ l := List.mem_toFinset.mp hc
    have hcount : 0 < l.count c := List.count_pos_iff.mpr hcmem
    have hlt : l.count c < l.length := by
      by_cases hac : a = c
      · exact count_lt_length_of_mem_ne hb (fun hbc => hab (hac ▸ hbc.symm ▸ rfl))
      · exact count_lt_length_of_mem_ne ha hac
    have hp0 : (0 : ℝ) < (l.count c : ℝ) / l.length :=
      div_pos (by exact_mod_cast hcount) hlenR
    have hp1 : (l.count c : ℝ) / l.length < 1 :=
      (div_lt_one hlenR).mpr (by exact_mod_cast hlt)
    have hlog : Real.logb 2 ((l.count c : ℝ) / l.length) < 0 :=
      Real.logb_neg (by norm_num) hp0 hp1
    nlinarith
  have hne : l.toFinset.Nonempty := ⟨a, List.mem_toFinset.mpr ha⟩
  have hsum := Finset.sum_pos key hne
  unfold charEntropy
  rw [← Finset.sum_neg_distrib]
  exact hsum

/-- C10: `calculate_entropy` joins its samples with single spaces, so for
two samples that each repeat the same non-space character the joined text
contains two distinct symbols (the character and the separator space) and
the returned character entropy is strictly positive. -/
theorem c10_join_space_entropy_positive (c : Char) (m n : ℕ)
    (hc : c ≠ ' ') (hm : 1 ≤ m) (_hn : 1 ≤ n) :
    joinWith [' '] [List.replicate m c, List.replicate n c]
      = List.replicate m c ++ [' '] ++ List.replicate n c ∧
    0 < calculate_entropy [List.replicate m c, List.replicate n c] := by
  refine ⟨rfl, ?_⟩
  have hne : ¬([List.replicate m c, List.replicate n c] = ([] : List (List Char))) := by
    simp
  rw [calculate_entropy, if_neg hne]
  have hjoin : joinWith [' '] [List.replicate m c, List.replicate n c]
      = List.replicate m c ++ [' '] ++ List.replicate n c := rfl
  rw [hjoin]
  refine charEntropy_pos (a := c) (b := ' ') hc ?_ ?_
  · have : c ∈ List.replicate m c := List.mem_replicate.mpr ⟨by omega, rfl⟩
    simp [this]
  · simp

/-- C10 (witness): the theorem at `c = 'a'`, samples `"aa"` and `"aaa"`. -/
theorem c10_witness :
    0 < calculate_entropy [List.replicate 2 'a', List.replicate 3 'a'] :=
  (c10_join_space_entropy_positive 'a' 2 3 (by decide) (by norm_num) (by norm_num)).2

/-- After `set_baseline([])` on a detector whose text pool is empty, a
`detect_drift` call with non-empty recent metrics takes the full analysis
path: the baseline dict IS set (four empty arrays), the entropy changes are
0 (empty-baseline entropy is 0, so the guard yields 0), the three KS tests
degrade to the insufficient-data result, hence no indicator fires. -/
lemma detect_drift_after_empty_set_baseline
    (ks : List ℚ → List ℚ → ℚ × ℚ) (splitLower : List Char → List (List Char))
    (fmtPct : ℝ → String) (d : DriftDetector) (h : d.baseline_text_samples = [])
    (recent : List MetricDict) (hr : recent ≠ []) :
    (detect_drift ks splitLower fmtPct (set_baseline d []) recent).drift_detected = false ∧
    (detect_drift ks splitLower fmtPct (set_baseline d []) recent).message
      = "No significant drift" := by
  have hbase : set_baseline d [] =
      { window_size := d.window_size
        baseline_metrics := some ⟨[], [], [], []⟩
        baseline_text_samples := [] } := by
    simp [set_baseline, harvestTexts, h]
  have hks : ∀ data, kolmogorov_smirnov_test ks [] data =
      ⟨0, 1, false, "Insufficient data for KS test", none⟩ := by
    intro data
    simp [kolmogorov_smirnov_test]
  have hent : calculate_entropy ([] : List (List Char)) = 0 := by
    simp [calculate_entropy]
  have hword : calculate_word_entropy splitLower ([] : List (List Char)) = 0 := by
    simp [calculate_word_entropy]
  have h0 : ¬((0 : ℝ) > 0) := by norm_num
  have h15 : ¬((0 : ℝ) > 0.15) := by norm_num
  rw [hbase]
  constructor <;>
    simp [detect_drift, if_neg hr, hent, hword, hks, h0, h15]

/-- C3 (counterexample): `set_baseline` with an empty list does NOT leave
the baseline unset — `baseline_metrics` becomes a (set) dict of four empty
arrays — and a subsequent `detect_drift` with one recent metric does NOT
return the "no baseline set" report: its message is "No significant drift".
This falsifies both halves of the claim at a concrete input. -/
theorem c3_counterexample :
    (set_baseline .mk0 []).baseline_metrics ≠ none ∧
    (detect_drift (fun _ _ => (0, 1)) (fun _ => []) (fun _ => "")
        (set_baseline .mk0 []) [⟨100, 10, 1, []⟩]).message
      ≠ "No baseline set. Call set_baseline() first." := by
  constructor
  · simp [set_baseline]
  · have h := detect_drift_after_empty_set_baseline (fun _ _ => (0, 1)) (fun _ => [])
      (fun _ => "") .mk0 rfl [⟨100, 10, 1, []⟩] (by simp)
    rw [h.2]
    decide

/-- C3 (amended): `set_baseline` with an empty list sets the baseline to
empty arrays — `baseline_metrics` is non-None, not "unset" — so a
subsequent `detect_drift` with non-empty recent metrics runs the full
analysis path and (on a detector whose text pool was empty) returns
`drift_detected = false` with the message "No significant drift"; the
"no baseline set" report is NOT produced. -/
theorem c3_empty_baseline_is_set_not_unset
    (ks : List ℚ → List ℚ → ℚ × ℚ) (splitLower : List Char → List (List Char))
    (fmtPct : ℝ → String) (d : DriftDetector) (h : d.baseline_text_samples = [])
    (recent : List MetricDict) (hr : recent ≠ []) :
    (set_baseline d []).baseline_metrics.isSome = true ∧
    (detect_drift ks splitLower fmtPct (set_baseline d []) recent).drift_detected = false ∧
    (detect_drift ks splitLower fmtPct (set_baseline d []) recent).message
      = "No significant drift" := by
  refine ⟨by simp [set_baseline], ?_, ?_⟩
  · exact (detect_drift_after_empty_set_baseline ks splitLower fmtPct d h recent hr).1
  · exact (detect_drift_after_empty_set_baseline ks splitLower fmtPct d h recent hr).2

/-- C3 (witness): the amended theorem at a freshly constructed detector and
a single concrete recent metric. -/
theorem c3_witness :
    (set_baseline .mk0 []).baseline_metrics.isSome = true ∧
    (detect_drift (fun _ _ => (0, 1)) (fun _ => []) (fun _ => "")
        (set_baseline .mk0 []) [⟨200, 20, 2, []⟩]).drift_detected = false := by
  have h := c3_empty_baseline_is_set_not_unset (fun _ _ => (0, 1)) (fun _ => [])
    (fun _ => "") .mk0 rfl [⟨200, 20, 2, []⟩] (by simp)
  exact ⟨h.1, h.2.1⟩

end Observability
